import Mathlib

/-!
Shallow embedding of the two scripts of this repository.

`dev/agent.ts` wires a two-node support-routing workflow: an initial-support
step that produces a draft reply and a routing label, a conditional router on
that label, and a certification-support step.  `sqltool/index.ts` is a linear
SQL-assistant bootstrap.  Model invocations are embedded as function
parameters (the scripts' LLM clients are external services); the graph
engine's step semantics (append-reduce on the message list, overwrite on the
scalar state fields, edge following) are taken from the wiring in
`dev/agent.ts` and the spec's control-flow description.
-/

namespace PromptLab

/-- Message author role, as langchain's message `_getType`: `"system"`,
`"human"` or `"ai"` (assistant-authored). -/
inductive Role
  | system
  | human
  | ai
deriving DecidableEq

/-- One conversation entry: role plus content. -/
structure Message where
  role : Role
  content : String
deriving DecidableEq

/-- The routing schema of `dev/agent.ts` lines 13-15: `z.enum(["RESPOND",
"CERTIFICATION"])`.  A structured-output invocation against this schema can
only yield one of these two labels. -/
inductive RoutingLabel
  | RESPOND
  | CERTIFICATION
deriving DecidableEq

/-- The string stored into the `nextRepresentative` state field for a routing
label (the zod enum values are these literal strings). -/
def RoutingLabel.text : RoutingLabel → String
  | RoutingLabel.RESPOND => "RESPOND"
  | RoutingLabel.CERTIFICATION => "CERTIFICATION"

/-- Modelled from the spec: `PROMPT.init.system` of `dev/prompts.ts` (the
prompts module is not among the given source files); the spec only calls it
"a system prompt", so its content is an abstract placeholder. -/
def promptInitSystem : String := "INITIAL_SUPPORT_SYSTEM_PROMPT"

/-- Modelled from the spec: `PROMPT.routing.system` of `dev/prompts.ts`, the
"routing-specific system prompt"; content abstract. -/
def promptRoutingSystem : String := "ROUTING_SYSTEM_PROMPT"

/-- Modelled from the spec: `PROMPT.routing.user` of `dev/prompts.ts`, the
"trailing instruction appended as the final input turn"; content abstract. -/
def promptRoutingUser : String := "ROUTING_TRAILING_INSTRUCTION"

/-- Modelled from the spec: `PROMPT.certification.system` of
`dev/prompts.ts`, the "fixed certification-domain system prompt"; content
abstract. -/
def promptCertificationSystem : String := "CERTIFICATION_SYSTEM_PROMPT"

/-- The workflow state (`StateAnnotation` of `dev/agent.ts` lines 7-11):
message history plus `nextRepresentative` and the unused `refundAuthorized`
flag. -/
structure AgentState where
  messages : List Message
  nextRepresentative : String
  refundAuthorized : Bool
deriving DecidableEq

/-- A partial state update as returned by a workflow node: `none` means the
node's returned object does not mention the field at all. -/
structure StateUpdate where
  messages : Option (List Message)
  nextRepresentative : Option String
  refundAuthorized : Option Bool
deriving DecidableEq

/-- A recorded model invocation: a plain chat completion or a
structured-output classification, each with the exact message list passed. -/
inductive ModelCall
  | chat (input : List Message)
  | classify (input : List Message)
deriving DecidableEq

/-- Applying a node's update to the state, per the graph-state reducers:
`MessagesAnnotation` concatenates the returned messages onto the history, and
the plain annotations `nextRepresentative` / `refundAuthorized` are
overwritten when the update names them and kept unchanged otherwise. -/
def applyUpdate (state : AgentState) (u : StateUpdate) : AgentState where
  messages := state.messages ++ u.messages.getD []
  nextRepresentative := u.nextRepresentative.getD state.nextRepresentative
  refundAuthorized := u.refundAuthorized.getD state.refundAuthorized

/-- The message list handed to the structured-output classification inside
`initialSupport` (`dev/agent.ts` lines 28-32): the routing system prompt,
then the full history, then the trailing routing instruction as a final
human turn. -/
def classificationInput (history : List Message) : List Message :=
  Message.mk Role.system promptRoutingSystem ::
    (history ++ [Message.mk Role.human promptRoutingUser])

/-- The `initialSupport` node (`dev/agent.ts` lines 17-40).  `chat` is the
LLM client (`llm.invoke`, always an assistant-authored reply, so it is a
function from the input messages to the reply content); `classify` is the
structured-output model constrained to `RoutingLabel`.  Returns the node's
state update together with the model calls it issued, in order. -/
def initialSupport (chat : List Message → String)
    (classify : List Message → RoutingLabel) (state : AgentState) :
    StateUpdate × List ModelCall :=
  let supportInput := Message.mk Role.system promptInitSystem :: state.messages
  let supportResponse := Message.mk Role.ai (chat supportInput)
  let routingMessages := classificationInput state.messages
  let routingResponse := classify routingMessages
  ({ messages := some [supportResponse],
     nextRepresentative := some routingResponse.text,
     refundAuthorized := none },
   [ModelCall.chat supportInput, ModelCall.classify routingMessages])

/-- The history-trimming guard of `certificationSupport` (`dev/agent.ts`
lines 43-48): `messages.at(-1)` is `undefined` on an empty history, so
dereferencing `._getType()` fails there (`none`); otherwise the trailing
entry is dropped exactly when it is assistant-authored
(`slice(0, -1)` = `dropLast`). -/
def trimmedHistory (messages : List Message) : Option (List Message) :=
  match messages.getLast? with
  | none => none
  | some last =>
      some (if last.role = Role.ai then messages.dropLast else messages)

/-- The `certificationSupport` node (`dev/agent.ts` lines 42-58): trim the
history, invoke the model on the certification system prompt plus the
trimmed history, and return an update naming only `messages`.  `none` when
the trimming guard fails (empty history), in which case no model call is
issued. -/
def certificationSupport (chat : List Message → String) (state : AgentState) :
    Option (StateUpdate × List ModelCall) :=
  match trimmedHistory state.messages with
  | none => none
  | some trimmed =>
      let callInput := Message.mk Role.system promptCertificationSystem :: trimmed
      some ({ messages := some [Message.mk Role.ai (chat callInput)],
              nextRepresentative := none,
              refundAuthorized := none },
            [ModelCall.chat callInput])

/-- JavaScript's `String.prototype.includes`, operationally: scan the
haystack left to right and test the needle as a prefix at each position. -/
def charsInclude (needle : List Char) : List Char → Bool
  | [] => needle.isPrefixOf []
  | c :: rest => needle.isPrefixOf (c :: rest) || charsInclude needle rest

/-- String containment (`s.includes(needle)` in the source). -/
def stringIncludes (s needle : String) : Bool :=
  charsInclude needle.data s.data

/-- The conditional-edge router of `dev/agent.ts` lines 69-75: the edge name
is `"certification"` when the label contains `"CERTIFICATION"` (JavaScript
`includes`), else `"conversational"`. -/
def routeEdge (label : String) : String :=
  if stringIncludes label "CERTIFICATION" then "certification"
  else "conversational"

/-- The edge-name-to-node mapping of `dev/agent.ts` lines 76-79:
`certification ↦ certification_support`, `conversational ↦ __end__`. -/
def edgeToNode (edge : String) : Option String :=
  if edge = "certification" then some "certification_support"
  else if edge = "conversational" then some "__end__"
  else none

/-- One workflow invocation (`dev/agent.ts` lines 62-93, 110-124): start at
`initial_support`, apply its update, follow the conditional edge on
`nextRepresentative`; the `certification` edge runs `certification_support`
and then ends, the `conversational` edge ends at once.  Returns the final
state and the list of nodes run, `none` if a step fails or an edge is
unmapped. -/
def runWorkflow (chat : List Message → String)
    (classify : List Message → RoutingLabel) (input : AgentState) :
    Option (AgentState × List String) :=
  let s1 := applyUpdate input (initialSupport chat classify input).1
  match edgeToNode (routeEdge s1.nextRepresentative) with
  | some "certification_support" =>
      match certificationSupport chat s1 with
      | none => none
      | some (u, _) =>
          some (applyUpdate s1 u, ["initial_support", "certification_support"])
  | some "__end__" => some (s1, ["initial_support"])
  | _ => none

/-- Observable steps of the SQL-assistant bootstrap (`sqltool/index.ts`). -/
inductive BootstrapEvent
  | connectAttempt
  | logSuccess
  | logError
  | exitProcess (code : Nat)
  | constructDb
  | constructToolkit
  | getTools
  | logTools
  | constructAgentExecutor
deriving DecidableEq

/-- The linear bootstrap of `sqltool/index.ts` lines 13-45 as an event trace,
parameterised by whether `datasource.initialize()` succeeds: on failure the
script logs the error and exits with status 1 inside the catch block, so
nothing after the try/catch runs; on success it constructs the `SqlDatabase`
wrapper, the `SqlToolkit`, the tool list, logs it, and builds the agent
executor. -/
def sqlBootstrap (connectSucceeds : Bool) : List BootstrapEvent :=
  if connectSucceeds then
    [BootstrapEvent.connectAttempt, BootstrapEvent.logSuccess,
     BootstrapEvent.constructDb, BootstrapEvent.constructToolkit,
     BootstrapEvent.getTools, BootstrapEvent.logTools,
     BootstrapEvent.constructAgentExecutor]
  else
    [BootstrapEvent.connectAttempt, BootstrapEvent.logError,
     BootstrapEvent.exitProcess 1]

/-- The SQL assistant's system prompt, verbatim from `sqltool/index.ts`
lines 49-75 (the TypeScript template literal's value: `\'` is `'` and `\"`
is `"`). -/
def systemPrompt : String :=
  "\nYou are a helpful assistant that can answer questions about the 'kc_certification' of 'product' based on 'certification' table. \nAnswer Users question based on the following **DB SCHEMA** AND **RULES**. \n\n## RULES:\nALWAYS reply in korean. \nALWAYS search the 'product' and 'category' in 'certification' table using exact match first.\nIf the search keyword is not found, retry search after removing spaces or adjusting spacing. \nALWAYS SQL query keyword should use ' instead of \".\n\n## DB SCHEMA:\n 'id' INTEGER\n 'created_at' DATETIME\n 'product' TEXT\n 'category' TEXT\n 'radio_certification' TEXT\n 'industry' TEXT\n 'condition' TEXT\n 'examples' TEXT\n 'kc_certification' TEXT\n\n## Example Query:\n 완구는 어떤 KC인증을 받아야해?\n\n## Answer:\n 완구는 [어린이제품] 카테고리에 속하며 [안전확인] 인증을 받아야합니다.\n"

/-- The Korean-language output directive inside the RULES block. -/
def koreanDirective : String := "ALWAYS reply in korean."

/-- The exact-match-first search directive inside the RULES block. -/
def exactMatchDirective : String :=
  "ALWAYS search the 'product' and 'category' in 'certification' table using exact match first."

/-- Correctness of the left-to-right scan: `charsInclude` decides the
substring (infix) relation. -/
theorem charsInclude_iff (needle hay : List Char) :
    charsInclude needle hay = true ↔ needle <:+: hay := by
  induction hay with
  | nil =>
      simp [charsInclude, List.isPrefixOf_iff_prefix, List.prefix_nil,
        List.infix_nil]
  | cons c rest ih =>
      simp [charsInclude, List.isPrefixOf_iff_prefix, Bool.or_eq_true, ih,
        List.infix_cons_iff]

/-- The embedded `includes` agrees with mathematical substring containment. -/
theorem stringIncludes_iff (s needle : String) :
    stringIncludes s needle = true ↔ needle.data <:+: s.data :=
  charsInclude_iff needle.data s.data

/-- On a non-empty history the trimming guard always succeeds. -/
theorem trimmedHistory_cons (m : Message) (rest : List Message) :
    ∃ t, trimmedHistory (m :: rest) = some t := by
  cases h : (m :: rest).getLast? with
  | none => exact absurd (List.getLast?_eq_none_iff.mp h) (by simp)
  | some last =>
      exact ⟨if last.role = Role.ai then (m :: rest).dropLast else m :: rest,
        by simp [trimmedHistory, h]⟩

/-- C1: for every history ending in an assistant-authored message the
certification-support step strips exactly that one trailing entry before
invoking the model, and for a history ending in any non-assistant entry
(in particular a user turn) it strips nothing: the history passed to the
model (after the fixed certification system prompt) is `msgs` in the first
case and the whole input history in the second. -/
theorem certificationSupport_trim (chat : List Message → String)
    (msgs : List Message) (m : Message) (next : String) (ra : Bool) :
    certificationSupport chat (AgentState.mk (msgs ++ [m]) next ra) =
      some
        (StateUpdate.mk
          (some [Message.mk Role.ai
            (chat (Message.mk Role.system promptCertificationSystem ::
              (if m.role = Role.ai then msgs else msgs ++ [m])))])
          none none,
         [ModelCall.chat (Message.mk Role.system promptCertificationSystem ::
            (if m.role = Role.ai then msgs else msgs ++ [m]))]) := by
  by_cases h : m.role = Role.ai <;>
    simp [certificationSupport, trimmedHistory, List.getLast?_concat,
      List.dropLast_concat, h]

/-- C2: on the two enumerated labels the router picks the certification edge
exactly for `CERTIFICATION` and the conversational (termination) edge for
`RESPOND`, and the edge map sends `certification` to the certification node
and `conversational` to workflow termination. -/
theorem router_enumerated_labels :
    routeEdge "CERTIFICATION" = "certification" ∧
    routeEdge "RESPOND" = "conversational" ∧
    edgeToNode "certification" = some "certification_support" ∧
    edgeToNode "conversational" = some "__end__" := by
  decide

/-- C3 counterexample: `"FOO"` is outside the enumeration yet the router
does map it — to the conversational edge, which the edge map sends to
workflow termination — refuting the claim that out-of-enumeration labels
are not mapped to either edge. -/
theorem router_out_of_enum_mapped :
    ("FOO" ≠ "RESPOND" ∧ "FOO" ≠ "CERTIFICATION") ∧
    routeEdge "FOO" = "conversational" ∧
    edgeToNode (routeEdge "FOO") = some "__end__" := by
  decide

/-- C3 amended: the router's `else` branch is a total fallback: every label,
including every label outside the enumeration, is mapped to one of the two
edges (`certification` or `conversational`), and that edge is always mapped
to a node. -/
theorem router_total_fallback (label : String) :
    (routeEdge label = "certification" ∨ routeEdge label = "conversational") ∧
    edgeToNode (routeEdge label) ≠ none := by
  by_cases h : stringIncludes label "CERTIFICATION" <;>
    simp [routeEdge, edgeToNode, h]

/-- C4: when the database connection attempt fails, the bootstrap logs the
error and exits with status 1, and no later step runs: the database wrapper,
the toolkit and the tool set are never constructed. -/
theorem sqlBootstrap_failure_exits :
    sqlBootstrap false =
      [BootstrapEvent.connectAttempt, BootstrapEvent.logError,
       BootstrapEvent.exitProcess 1] ∧
    BootstrapEvent.exitProcess 1 ∈ sqlBootstrap false ∧
    BootstrapEvent.constructDb ∉ sqlBootstrap false ∧
    BootstrapEvent.constructToolkit ∉ sqlBootstrap false ∧
    BootstrapEvent.getTools ∉ sqlBootstrap false := by
  decide

/-- C5: for every workflow invocation on a single user message whose
classifier is stubbed to return `CERTIFICATION`, the run visits the initial
node then the certification node then ends, and the final message list holds
exactly two assistant-authored replies — the initial-support reply first,
the certification-support reply second — after the user message. -/
theorem workflow_certification_path (chat : List Message → String)
    (content next : String) (ra : Bool) :
    runWorkflow chat (fun _ => RoutingLabel.CERTIFICATION)
        (AgentState.mk [Message.mk Role.human content] next ra) =
      some (AgentState.mk
        [Message.mk Role.human content,
         Message.mk Role.ai (chat [Message.mk Role.system promptInitSystem,
           Message.mk Role.human content]),
         Message.mk Role.ai (chat
           [Message.mk Role.system promptCertificationSystem,
            Message.mk Role.human content])]
        "CERTIFICATION" ra,
      ["initial_support", "certification_support"]) ∧
    List.filter (fun m => m.role == Role.ai)
        [Message.mk Role.human content,
         Message.mk Role.ai (chat [Message.mk Role.system promptInitSystem,
           Message.mk Role.human content]),
         Message.mk Role.ai (chat
           [Message.mk Role.system promptCertificationSystem,
            Message.mk Role.human content])] =
      [Message.mk Role.ai (chat [Message.mk Role.system promptInitSystem,
         Message.mk Role.human content]),
       Message.mk Role.ai (chat
         [Message.mk Role.system promptCertificationSystem,
          Message.mk Role.human content])] :=
  ⟨rfl, rfl⟩

/-- C6: for every input history the classification invocation of the
initial-support step receives exactly the routing system prompt first, then
the full history in order, then the trailing routing instruction as the last
turn, and its result type has exactly the two labels `RESPOND` and
`CERTIFICATION`. -/
theorem classification_input_shape (chat : List Message → String)
    (classify : List Message → RoutingLabel) (state : AgentState) :
    (initialSupport chat classify state).2 =
      [ModelCall.chat
        (Message.mk Role.system promptInitSystem :: state.messages),
       ModelCall.classify (classificationInput state.messages)] ∧
    (classificationInput state.messages).head? =
      some (Message.mk Role.system promptRoutingSystem) ∧
    (classificationInput state.messages).getLast? =
      some (Message.mk Role.human promptRoutingUser) ∧
    ((classificationInput state.messages).drop 1).dropLast = state.messages ∧
    (∀ l : RoutingLabel,
      l = RoutingLabel.RESPOND ∨ l = RoutingLabel.CERTIFICATION) := by
  refine ⟨rfl, rfl, ?_, ?_, ?_⟩
  · show (Message.mk Role.system promptRoutingSystem ::
        (state.messages ++ [Message.mk Role.human promptRoutingUser])).getLast?
      = some (Message.mk Role.human promptRoutingUser)
    rw [← List.cons_append, List.getLast?_concat]
  · show ((Message.mk Role.system promptRoutingSystem ::
        (state.messages ++ [Message.mk Role.human promptRoutingUser])).drop
          1).dropLast = state.messages
    simp [List.dropLast_concat]
  · intro l
    cases l
    · exact Or.inl rfl
    · exact Or.inr rfl

set_option maxRecDepth 40000 in
/-- C7: the SQL assistant's system prompt contains, verbatim, the
Korean-language output directive and the exact-match-first search directive. -/
theorem systemPrompt_contains_directives :
    stringIncludes systemPrompt koreanDirective = true ∧
    stringIncludes systemPrompt exactMatchDirective = true := by
  constructor <;> decide

/-- C8: the initial-support update never names `refundAuthorized` (so
applying it leaves that flag unchanged), and the certification-support
update names only `messages`: it never names `nextRepresentative` or
`refundAuthorized`, so applying it leaves both unchanged. -/
theorem steps_frame_conditions (chat : List Message → String)
    (classify : List Message → RoutingLabel) (state : AgentState)
    (m : Message) (rest : List Message) (next : String) (ra : Bool) :
    ((initialSupport chat classify state).1.refundAuthorized = none ∧
     (applyUpdate state
        (initialSupport chat classify state).1).refundAuthorized =
       state.refundAuthorized) ∧
    ∃ u calls,
      certificationSupport chat (AgentState.mk (m :: rest) next ra) =
        some (u, calls) ∧
      u.nextRepresentative = none ∧
      u.refundAuthorized = none ∧
      (applyUpdate (AgentState.mk (m :: rest) next ra) u).nextRepresentative =
        next ∧
      (applyUpdate (AgentState.mk (m :: rest) next ra) u).refundAuthorized =
        ra := by
  refine ⟨⟨rfl, rfl⟩, ?_⟩
  obtain ⟨t, ht⟩ := trimmedHistory_cons m rest
  refine ⟨StateUpdate.mk (some [Message.mk Role.ai
      (chat (Message.mk Role.system promptCertificationSystem :: t))])
      none none,
    [ModelCall.chat (Message.mk Role.system promptCertificationSystem :: t)],
    ?_, rfl, rfl, rfl, rfl⟩
  simp [certificationSupport, ht]

/-- C9: the certification-support step is partial exactly at the empty
history: there the trimming guard itself fails (`at(-1)` is `undefined`)
and the step returns nothing — so no model call is issued — while on every
non-empty history the step is defined. -/
theorem certificationSupport_empty_history (chat : List Message → String)
    (next : String) (ra : Bool) (m : Message) (rest : List Message) :
    certificationSupport chat (AgentState.mk [] next ra) = none ∧
    trimmedHistory ([] : List Message) = none ∧
    (certificationSupport chat
      (AgentState.mk (m :: rest) next ra)).isSome = true := by
  refine ⟨rfl, rfl, ?_⟩
  obtain ⟨t, ht⟩ := trimmedHistory_cons m rest
  simp [certificationSupport, ht]

/-- C10: the router decides by substring containment, not equality: every
label containing `"CERTIFICATION"` as a substring is sent to the
certification edge, and every label not containing it to the conversational
edge. -/
theorem router_substring_containment (label : String) :
    ("CERTIFICATION".data <:+: label.data →
      routeEdge label = "certification") ∧
    (¬ "CERTIFICATION".data <:+: label.data →
      routeEdge label = "conversational") := by
  constructor
  · intro h
    have hb : stringIncludes label "CERTIFICATION" = true :=
      (stringIncludes_iff label "CERTIFICATION").mpr h
    simp [routeEdge, hb]
  · intro h
    have hb : stringIncludes label "CERTIFICATION" = false := by
      cases hc : stringIncludes label "CERTIFICATION"
      · rfl
      · exact absurd ((stringIncludes_iff label "CERTIFICATION").mp hc) h
    simp [routeEdge, hb]

/-- Witness for C10: `"NOT_CERTIFICATION"` lies outside the enumeration yet
contains the substring, and the router sends it to the certification edge. -/
theorem router_substring_containment_witness :
    routeEdge "NOT_CERTIFICATION" = "certification" :=
  (router_substring_containment "NOT_CERTIFICATION").1 (by decide)

end PromptLab
